import Mathlib

/-!
Verification of the temporal-synchronization / configuration-derivation layer
of the msckf_mono pipeline, shallowly embedded from `src/src/ros_interface.cpp`.

Scalars that the C++ code stores as `float`/`double` are modelled as `ℚ`:
every operation the embedded code performs on them (comparison, subtraction,
division, squaring) is exact on the inputs considered here.  Images are
opaque (`ℕ` identifiers); external collaborators (tracker, estimator) are
modelled by the traces of calls made to their interfaces.
-/

namespace Msckf

/-- A 3-vector, as `Eigen::Matrix<float,3,1>`. -/
structure Vec3 where
  x : ℚ
  y : ℚ
  z : ℚ
deriving DecidableEq

/-- A 3x3 matrix, as `Eigen::Matrix3` / `cv::Mat 3x3`, row major fields. -/
structure Mat3 where
  m00 : ℚ
  m01 : ℚ
  m02 : ℚ
  m10 : ℚ
  m11 : ℚ
  m12 : ℚ
  m20 : ℚ
  m21 : ℚ
  m22 : ℚ
deriving DecidableEq

/-- Matrix transpose, as `Eigen ... .transpose()`. -/
def Mat3.transpose (m : Mat3) : Mat3 :=
  ⟨m.m00, m.m10, m.m20, m.m01, m.m11, m.m21, m.m02, m.m12, m.m22⟩

/-- Matrix–vector product, as Eigen `operator*`. -/
def Mat3.mulVec (m : Mat3) (v : Vec3) : Vec3 :=
  ⟨m.m00 * v.x + m.m01 * v.y + m.m02 * v.z,
   m.m10 * v.x + m.m11 * v.y + m.m12 * v.z,
   m.m20 * v.x + m.m21 * v.y + m.m22 * v.z⟩

/-- The 3x3 identity, as `cv::Mat::eye(3,3,CV_32F)`. -/
def Mat3.identity : Mat3 := ⟨1, 0, 0, 0, 1, 0, 0, 0, 1⟩

/-- `msckf_mono::imuReading<float>`: accelerometer, gyro and time gap
(`ros_interface.cpp` lines 30-40). -/
structure imuReading where
  a : Vec3
  omega : Vec3
  dT : ℚ
deriving DecidableEq

/-- Mutable state of `RosInterface` touched by the two sensor callbacks:
the first-sample flag, the recorded previous imu time, and the queue
`imu_queue_` of `(timestamp, reading)` pairs in arrival order. -/
structure RosState where
  isFirstImu : Bool
  prevImuTime : ℚ
  imuQueue : List (ℚ × imuReading)
deriving DecidableEq

/-- State at (re)start: no sample seen yet, empty queue.  `prev_imu_time_`
is uninitialized in the C++ until the first sample seeds it (and it is read
only after that seeding); `0` here is an arbitrary placeholder. -/
def initialState : RosState := ⟨true, 0, []⟩

/-- `RosInterface::imuCallback` (lines 21-43): the first sample only seeds
`prev_imu_time_`; every later sample is appended to `imu_queue_` with
`dT = cur_imu_time - prev_imu_time_`.  Note that, exactly as in the source,
`prev_imu_time_` is NOT updated after the seeding branch. -/
def imuCallback (s : RosState) (t : ℚ) (acc w : Vec3) : RosState :=
  if s.isFirstImu then
    { s with prevImuTime := t, isFirstImu := false }
  else
    { s with imuQueue := s.imuQueue ++ [(t, ⟨acc, w, t - s.prevImuTime⟩)] }

/-- The queue partition performed in `RosInterface::imageCallback`
(lines 63-77): `std::find_if` locates the first entry with timestamp
strictly greater than the image time; the entries before it are copied out
(`std::transform`) and then erased.  Returns (drained part, remaining part). -/
def drainUpTo (q : List (ℚ × imuReading)) (t : ℚ) :
    List (ℚ × imuReading) × List (ℚ × imuReading) :=
  (q.takeWhile (fun x => !decide (t < x.1)), q.dropWhile (fun x => !decide (t < x.1)))

/-- Calls made to the external `corner_detector::TrackHandler` during one
image callback. -/
inductive TrackerEvent where
  | addGyroReading (v : Vec3)
  | setCurrentImage (img : ℕ) (t : ℚ)
  | trackedFeatures
  | newFeatures
  | getTrackImage
deriving DecidableEq

/-- `RosInterface::imageCallback` (lines 45-95).  `decoded` is the result of
`cv_bridge::toCvCopy(msg, MONO8)`: `none` when it throws (the catch branch
logs and returns, line 53-57), `some img` on success.  On success the queue
is drained at the image time, each drained reading's gyro vector is forwarded
as `R_cam_imu_.transpose() * omega` in order, the queue is trimmed, the frame
is handed over, the two feature sets are queried, and `publish_extra` asks
for the track image only when the publisher has subscribers. -/
def imageCallback (R_cam_imu : Mat3) (hasTrackSubscribers : Bool) (s : RosState)
    (t : ℚ) (decoded : Option ℕ) : RosState × List TrackerEvent :=
  match decoded with
  | none => (s, [])
  | some img =>
      let d := drainUpTo s.imuQueue t
      ({ s with imuQueue := d.2 },
       d.1.map (fun x => TrackerEvent.addGyroReading (R_cam_imu.transpose.mulVec x.2.omega))
         ++ TrackerEvent.setCurrentImage img t ::
            TrackerEvent.trackedFeatures ::
            TrackerEvent.newFeatures ::
            (if hasTrackSubscribers then [TrackerEvent.getTrackImage] else []))

/-- Raw configuration input of `RosInterface::load_parameters` (lines 126-240):
the named key→value store.  Tunables that `nh_.param` reads with a default are
`Option`-valued (`none` = key absent); the calibration entries that
`nh_.getParam` requires are plain values. -/
structure RawConfig where
  intrinsics : Fin 4 → ℚ
  distortionModel : String
  distortionCoeffs : Fin 4 → ℚ
  T_cam_imu : Fin 4 → Fin 4 → ℚ
  nGridRows : Option ℤ
  nGridCols : Option ℤ
  ransacThresholdParam : Option ℚ
  featureCovariance : Option ℚ
  wVar : Option ℚ
  dbgVar : Option ℚ
  aVar : Option ℚ
  dbaVar : Option ℚ
  qVarInit : Option ℚ
  bgVarInit : Option ℚ
  vVarInit : Option ℚ
  baVarInit : Option ℚ
  pVarInit : Option ℚ
  maxGnCostNorm : Option ℚ
  translationThreshold : Option ℚ
  minRcond : Option ℚ
  keyframeTranslDist : Option ℚ
  keyframeRotDist : Option ℚ
  maxTrackLength : Option ℤ
  minTrackLength : Option ℤ
  maxCamStates : Option ℤ

/-- `msckf_mono::Camera<float>` fields assigned at lines 177-183.  Eigen's
quaternion constructor is external; `q_CI` is represented by the rotation
matrix it is built from. -/
structure Camera where
  c_u : ℚ
  c_v : ℚ
  f_u : ℚ
  f_v : ℚ
  q_CI : Mat3
  p_C_I : Vec3
deriving DecidableEq

/-- `msckf_mono::noiseParams<float>` as assembled at lines 212-216; the two
covariances are diagonal, kept as their diagonals. -/
structure noiseParams where
  initial_imu_covar : Fin 15 → ℚ
  Q_imu : Fin 12 → ℚ
  u_var_prime : ℚ
  v_var_prime : ℚ
deriving DecidableEq

/-- `msckf_mono::MSCKFParams<float>` as assembled at lines 219-227. -/
structure MSCKFParams where
  max_gn_cost_norm : ℚ
  translation_threshold : ℚ
  min_rcond : ℚ
  redundancy_angle_thresh : ℚ
  redundancy_distance_thresh : ℚ
  max_track_length : ℤ
  min_track_length : ℤ
  max_cam_states : ℤ
deriving DecidableEq

/-- Everything `load_parameters` stores into the `RosInterface` members,
plus `ransacThresholdLocal`: line 173 declares a function-local
`float ransac_threshold_;` that shadows the member of the same name, so the
value loaded at line 174 lands in this local and never leaves the function. -/
structure LoadedParams where
  K : Mat3
  distortion_model : String
  dist_coeffs : Fin 4 → ℚ
  R_cam_imu : Mat3
  p_cam_imu : Vec3
  n_grid_rows : ℤ
  n_grid_cols : ℤ
  ransacThresholdLocal : ℚ
  camera : Camera
  noise_params : noiseParams
  msckf_params : MSCKFParams
deriving DecidableEq

/-- `RosInterface::load_parameters` (lines 126-240), as the pure derivation
raw configuration → loaded members.  Every assignment mirrors the source:
`K_` gets `intrinsics[0..3]` as `(0,0),(1,1),(0,2),(1,2)` over an identity;
`R_cam_imu_`/`p_cam_imu_` are the 3x3 block and translation column of
`T_cam_imu`; `camera_` gets `c_u,c_v = intrinsics[0],[1]` and
`f_u,f_v = intrinsics[2],[3]`; the noise variances divide by `camera_.f_u` /
`camera_.f_v` before squaring; `keyframe_transl_dist` is stored into
`redundancy_angle_thresh` and `keyframe_rot_dist` into
`redundancy_distance_thresh`. -/
def load_parameters (cfg : RawConfig) : LoadedParams :=
  let K : Mat3 :=
    { Mat3.identity with
      m00 := cfg.intrinsics 0, m11 := cfg.intrinsics 1,
      m02 := cfg.intrinsics 2, m12 := cfg.intrinsics 3 }
  let R : Mat3 :=
    ⟨cfg.T_cam_imu 0 0, cfg.T_cam_imu 0 1, cfg.T_cam_imu 0 2,
     cfg.T_cam_imu 1 0, cfg.T_cam_imu 1 1, cfg.T_cam_imu 1 2,
     cfg.T_cam_imu 2 0, cfg.T_cam_imu 2 1, cfg.T_cam_imu 2 2⟩
  let p : Vec3 := ⟨cfg.T_cam_imu 0 3, cfg.T_cam_imu 1 3, cfg.T_cam_imu 2 3⟩
  let camera : Camera :=
    { c_u := cfg.intrinsics 0, c_v := cfg.intrinsics 1,
      f_u := cfg.intrinsics 2, f_v := cfg.intrinsics 3,
      q_CI := R, p_C_I := p }
  let feature_cov : ℚ := cfg.featureCovariance.getD 7
  let w_var : ℚ := cfg.wVar.getD 1e-5
  let dbg_var : ℚ := cfg.dbgVar.getD 3.6733e-5
  let a_var : ℚ := cfg.aVar.getD 1e-3
  let dba_var : ℚ := cfg.dbaVar.getD 7e-4
  let q_var_init : ℚ := cfg.qVarInit.getD 1e-5
  let bg_var_init : ℚ := cfg.bgVarInit.getD 1e-2
  let v_var_init : ℚ := cfg.vVarInit.getD 1e-2
  let ba_var_init : ℚ := cfg.baVarInit.getD 1e-2
  let p_var_init : ℚ := cfg.pVarInit.getD 1e-12
  let Q_imu_vars : Fin 12 → ℚ := fun i =>
    if (i : ℕ) < 3 then w_var
    else if (i : ℕ) < 6 then dbg_var
    else if (i : ℕ) < 9 then a_var
    else dba_var
  let IMUCovar_vars : Fin 15 → ℚ := fun i =>
    if (i : ℕ) < 3 then q_var_init
    else if (i : ℕ) < 6 then bg_var_init
    else if (i : ℕ) < 9 then v_var_init
    else if (i : ℕ) < 12 then ba_var_init
    else p_var_init
  let max_gn_cost_norm_raw : ℚ := cfg.maxGnCostNorm.getD 11
  { K := K
    distortion_model := cfg.distortionModel
    dist_coeffs := cfg.distortionCoeffs
    R_cam_imu := R
    p_cam_imu := p
    n_grid_rows := cfg.nGridRows.getD 8
    n_grid_cols := cfg.nGridCols.getD 8
    ransacThresholdLocal := cfg.ransacThresholdParam.getD 0.000002
    camera := camera
    noise_params :=
      { initial_imu_covar := IMUCovar_vars
        Q_imu := Q_imu_vars
        u_var_prime := (feature_cov / camera.f_u) ^ 2
        v_var_prime := (feature_cov / camera.f_v) ^ 2 }
    msckf_params :=
      { max_gn_cost_norm := (max_gn_cost_norm_raw / camera.f_u) ^ 2
        translation_threshold := cfg.translationThreshold.getD 0.05
        min_rcond := cfg.minRcond.getD 3e-12
        redundancy_angle_thresh := cfg.keyframeTranslDist.getD 0.005
        redundancy_distance_thresh := cfg.keyframeRotDist.getD 0.05
        max_track_length := cfg.maxTrackLength.getD 1000
        min_track_length := cfg.minTrackLength.getD 3
        max_cam_states := cfg.maxCamStates.getD 20 } }

/-- Opaque stand-in for `msckf_mono::imuState<float>` (`init_imu_state_`),
a type of the external estimator library; its contents are never inspected
by the code under verification. -/
structure imuState where
  tag : ℕ
deriving DecidableEq

/-- Calls made to external collaborators during startup. -/
inductive SetupEvent where
  | loadParams
  | trackerCreate (K : Mat3) (distModel : String)
  | trackerSetGridSize (rows cols : ℤ)
  | trackerSetRansacThreshold (v : ℚ)
  | subscribeImage
  | advertiseTrackImage
  | subscribeImu
  | estimatorInitialize (cam : Camera) (np : noiseParams) (mp : MSCKFParams) (st : imuState)
deriving DecidableEq

/-- `RosInterface::setup_track_handler` (lines 113-118).  The tracker is
created from `K_`, the distortion data and grid members loaded by
`load_parameters`; `set_ransac_threshold` is called with the MEMBER
`ransac_threshold_`, which `load_parameters` never assigned (its load went
into a shadowing local), so the member still holds whatever value
`ransacThresholdMember` it had before. -/
def setup_track_handler (ransacThresholdMember : ℚ) (p : LoadedParams) :
    List SetupEvent :=
  [SetupEvent.trackerCreate p.K p.distortion_model,
   SetupEvent.trackerSetGridSize p.n_grid_rows p.n_grid_cols,
   SetupEvent.trackerSetRansacThreshold ransacThresholdMember]

/-- `RosInterface::setup_msckf` (lines 120-124): create the estimator and
call `initialize` once with the derived camera, noise and filter bundles and
the initial imu state. -/
def setup_msckf (p : LoadedParams) (st : imuState) : List SetupEvent :=
  [SetupEvent.estimatorInitialize p.camera p.noise_params p.msckf_params st]

/-- The `RosInterface` constructor (lines 5-19): run `load_parameters`, then
`setup_track_handler`, then subscribe/advertise the three topics.  It never
calls `setup_msckf`.  `ransacThresholdMemberInit` is the (indeterminate)
value the member `ransac_threshold_` holds before the constructor body. -/
def rosInterfaceConstructor (cfg : RawConfig) (ransacThresholdMemberInit : ℚ) :
    List SetupEvent :=
  SetupEvent.loadParams ::
    setup_track_handler ransacThresholdMemberInit (load_parameters cfg) ++
    [SetupEvent.subscribeImage, SetupEvent.advertiseTrackImage, SetupEvent.subscribeImu]

/-- Whether a setup event is the estimator's `initialize` call. -/
def SetupEvent.isEstimatorInitialize : SetupEvent → Bool
  | SetupEvent.estimatorInitialize _ _ _ _ => true
  | _ => false

/-- One external input event delivered to the node: an inertial sample or an
image (with the result of its decode attempt). -/
inductive InputEvent where
  | imuArrives (t : ℚ) (acc w : Vec3)
  | imageArrives (t : ℚ) (decoded : Option ℕ)
deriving DecidableEq

/-- Replay a sequence of input events through the two callbacks, keeping the
final `RosState`. -/
def runState (R : Mat3) (hs : Bool) (s : RosState) : List InputEvent → RosState
  | [] => s
  | InputEvent.imuArrives t acc w :: es => runState R hs (imuCallback s t acc w) es
  | InputEvent.imageArrives t d :: es => runState R hs (imageCallback R hs s t d).1 es

/-- Replay a sequence of input events, collecting for every successfully
decoded image the list of `(timestamp, reading)` pairs its callback drained
from the queue, in event order. -/
def runDrains (R : Mat3) (hs : Bool) (s : RosState) :
    List InputEvent → RosState × List (List (ℚ × imuReading))
  | [] => (s, [])
  | InputEvent.imuArrives t acc w :: es => runDrains R hs (imuCallback s t acc w) es
  | InputEvent.imageArrives t none :: es =>
      runDrains R hs (imageCallback R hs s t none).1 es
  | InputEvent.imageArrives t (some img) :: es =>
      let r := runDrains R hs (imageCallback R hs s t (some img)).1 es
      (r.1, (drainUpTo s.imuQueue t).1 :: r.2)

/-- The samples `imuCallback` ingests (constructs and enqueues) over an event
sequence, given the current first-sample flag and recorded previous time:
the projection of the imu path of the callbacks.  The seed-only first sample
is not ingested, and — as in the source — the recorded previous time is
never moved past the seed. -/
def ingestedSamples : Bool → ℚ → List InputEvent → List (ℚ × imuReading)
  | _, _, [] => []
  | true, _, InputEvent.imuArrives t _ _ :: es => ingestedSamples false t es
  | false, p, InputEvent.imuArrives t acc w :: es =>
      (t, ⟨acc, w, t - p⟩) :: ingestedSamples false p es
  | f, p, InputEvent.imageArrives _ _ :: es => ingestedSamples f p es

/-- Modelled from the claim of C6 (spec words, not the source): the
translation keyframe threshold is expected in the correspondingly-named
translation/distance field of the filter parameters, with default `0.005`.
Compared against what `load_parameters` actually stores there. -/
def claimedRedundancyDistanceThresh (cfg : RawConfig) : ℚ :=
  cfg.keyframeTranslDist.getD 0.005

/-- The zero vector. -/
def zero3 : Vec3 := ⟨0, 0, 0⟩

/-- A raw configuration with identity extrinsics and every optional tunable
absent; base point for the concrete configurations below. -/
def cfgBase : RawConfig :=
  { intrinsics := fun _ => 1
    distortionModel := "radtan"
    distortionCoeffs := fun _ => 0
    T_cam_imu := fun i j => if (i : ℕ) = (j : ℕ) then 1 else 0
    nGridRows := none, nGridCols := none
    ransacThresholdParam := none
    featureCovariance := none
    wVar := none, dbgVar := none, aVar := none, dbaVar := none
    qVarInit := none, bgVarInit := none, vVarInit := none
    baVarInit := none, pVarInit := none
    maxGnCostNorm := none
    translationThreshold := none
    minRcond := none
    keyframeTranslDist := none
    keyframeRotDist := none
    maxTrackLength := none, minTrackLength := none, maxCamStates := none }

/-- Kalibr-ordered intrinsics `f_u=300, f_v=300, c_u=320, c_v=240` with
`feature_pixel_std = 7` (scenario of C1). -/
def cfgKalibr : RawConfig :=
  { cfgBase with
    intrinsics := ![300, 300, 320, 240]
    featureCovariance := some 7 }

/-- Configuration with keyframe translation threshold 1 and keyframe
rotation threshold 2 (input of the C6 counterexample). -/
def cfgKeyframe : RawConfig :=
  { cfgBase with keyframeTranslDist := some 1, keyframeRotDist := some 2 }

/-- Configuration with the RANSAC-threshold key present and equal to `1/2`
(input of C9). -/
def cfgRansac : RawConfig :=
  { cfgBase with ransacThresholdParam := some (1 / 2) }

/-- Concrete two-sample queue used to witness the drain partition. -/
def qTwo : List (ℚ × imuReading) :=
  [(1, ⟨zero3, zero3, 0⟩), (2, ⟨zero3, zero3, 1⟩)]

/-- Queue of the spec scenario scaled by 10: samples at `10, 11, 12, 13`
(for `1.0, 1.1, 1.2, 1.3`), each with body-frame angular velocity
`(0,0,1)`. -/
def qScenario : List (ℚ × imuReading) :=
  [(10, ⟨zero3, ⟨0, 0, 1⟩, 0⟩), (11, ⟨zero3, ⟨0, 0, 1⟩, 1⟩),
   (12, ⟨zero3, ⟨0, 0, 1⟩, 1⟩), (13, ⟨zero3, ⟨0, 0, 1⟩, 1⟩)]

/-- A state holding `qScenario` with the seed already consumed. -/
def sScenario : RosState := ⟨false, 10, qScenario⟩

/-- Three inertial arrivals at times `0, 1, 3` (input of C3). -/
def eventsDt : List InputEvent :=
  [InputEvent.imuArrives 0 zero3 zero3,
   InputEvent.imuArrives 1 zero3 zero3,
   InputEvent.imuArrives 3 zero3 zero3]

/-- Seed sample at `0`, sample at `5`, then an image at `1`: the sample at
`5` stays queued after the image's drain (input of the C5 counterexample). -/
def eventsPending : List InputEvent :=
  [InputEvent.imuArrives 0 zero3 zero3,
   InputEvent.imuArrives 5 zero3 zero3,
   InputEvent.imageArrives 1 (some 0)]

/-- On a queue with non-decreasing timestamps, the prefix the drain copies
out (everything before the first entry with timestamp above `t`) is exactly
the set of entries with timestamp at most `t`. -/
theorem takeWhile_eq_filter_le (t : ℚ) :
    ∀ q : List (ℚ × imuReading), q.Pairwise (fun a b => a.1 ≤ b.1) →
      q.takeWhile (fun x => !decide (t < x.1)) = q.filter (fun x => decide (x.1 ≤ t))
  | [], _ => rfl
  | a :: q, h => by
      rcases List.pairwise_cons.mp h with ⟨ha, hq⟩
      by_cases hat : t < a.1
      · have hfil : q.filter (fun x => decide (x.1 ≤ t)) = [] := by
          rw [List.filter_eq_nil_iff]
          intro x hx
          simp only [decide_eq_true_eq, not_le]
          exact lt_of_lt_of_le hat (ha x hx)
        simp [List.takeWhile_cons, List.filter_cons, hat, not_le.mpr hat, hfil]
      · simp [List.takeWhile_cons, List.filter_cons, hat, not_lt.mp hat,
              takeWhile_eq_filter_le t q hq]

/-- On a queue with non-decreasing timestamps, what the drain leaves behind
is exactly the set of entries with timestamp above `t`. -/
theorem dropWhile_eq_filter_gt (t : ℚ) :
    ∀ q : List (ℚ × imuReading), q.Pairwise (fun a b => a.1 ≤ b.1) →
      q.dropWhile (fun x => !decide (t < x.1)) = q.filter (fun x => decide (t < x.1))
  | [], _ => rfl
  | a :: q, h => by
      rcases List.pairwise_cons.mp h with ⟨ha, hq⟩
      by_cases hat : t < a.1
      · have hfil : q.filter (fun x => decide (t < x.1)) = q := by
          rw [List.filter_eq_self]
          intro x hx
          simp only [decide_eq_true_eq]
          exact lt_of_lt_of_le hat (ha x hx)
        simp [List.dropWhile_cons, List.filter_cons, hat, hfil]
      · simp [List.dropWhile_cons, List.filter_cons, hat, not_lt.mp hat,
              dropWhile_eq_filter_gt t q hq]

/-- Claim C2: on a buffer with non-decreasing timestamps the drain performed
on image arrival removes and returns exactly the entries with timestamp at
most the cutoff (the maximal such prefix, in arrival order), leaves exactly
the entries with timestamp above the cutoff in order, and drained plus
remaining reassemble the original buffer; the empty buffer is the `q = []`
instance, where both parts are empty. -/
theorem drainUpTo_partitions (q : List (ℚ × imuReading)) (t : ℚ)
    (hq : q.Pairwise (fun a b => a.1 ≤ b.1)) :
    (drainUpTo q t).1 = q.filter (fun x => decide (x.1 ≤ t)) ∧
    (drainUpTo q t).2 = q.filter (fun x => decide (t < x.1)) ∧
    (drainUpTo q t).1 ++ (drainUpTo q t).2 = q :=
  ⟨takeWhile_eq_filter_le t q hq, dropWhile_eq_filter_gt t q hq,
   by unfold drainUpTo; exact List.takeWhile_append_dropWhile _ q⟩

/-- Witness for C2 at the concrete queue `qTwo` and cutoff `3/2`. -/
theorem drainUpTo_partitions_witness :
    qTwo.Pairwise (fun a b => a.1 ≤ b.1) ∧
    ((drainUpTo qTwo (3 / 2)).1 = qTwo.filter (fun x => decide (x.1 ≤ (3 / 2 : ℚ))) ∧
     (drainUpTo qTwo (3 / 2)).2 = qTwo.filter (fun x => decide ((3 / 2 : ℚ) < x.1)) ∧
     (drainUpTo qTwo (3 / 2)).1 ++ (drainUpTo qTwo (3 / 2)).2 = qTwo) :=
  ⟨by decide, drainUpTo_partitions qTwo (3 / 2) (by decide)⟩

/-- Claim C4: on a successfully decoded image over a buffer with
non-decreasing timestamps, the tracker receives exactly one
`add_gyro_reading` call per drained sample, carrying
`R_cam_imu^T * omega`, in the samples' arrival order, all of them before the
single `set_current_image` call; with an empty (or fully retained) buffer
the filter is empty and the frame is still handed over. -/
theorem imageCallback_forwards_rotated_gyros (R : Mat3) (hs : Bool) (s : RosState)
    (t : ℚ) (img : ℕ) (hq : s.imuQueue.Pairwise (fun a b => a.1 ≤ b.1)) :
    (imageCallback R hs s t (some img)).2 =
      (s.imuQueue.filter (fun x => decide (x.1 ≤ t))).map
          (fun x => TrackerEvent.addGyroReading (R.transpose.mulVec x.2.omega))
        ++ TrackerEvent.setCurrentImage img t ::
           TrackerEvent.trackedFeatures ::
           TrackerEvent.newFeatures ::
           (if hs then [TrackerEvent.getTrackImage] else []) := by
  simp only [imageCallback, drainUpTo]
  rw [takeWhile_eq_filter_le t s.imuQueue hq]

/-- Witness for C4 at the (scaled) spec scenario: queue at `10, 11, 12, 13`
with angular velocity `(0,0,1)`, identity extrinsic rotation, image cutoff
`11` (two samples drained, two retained, frame still delivered). -/
theorem imageCallback_forwards_rotated_gyros_witness :
    sScenario.imuQueue.Pairwise (fun a b => a.1 ≤ b.1) ∧
    (imageCallback Mat3.identity false sScenario 11 (some 0)).2 =
      (sScenario.imuQueue.filter (fun x => decide (x.1 ≤ (11 : ℚ)))).map
          (fun x => TrackerEvent.addGyroReading (Mat3.identity.transpose.mulVec x.2.omega))
        ++ TrackerEvent.setCurrentImage 0 11 ::
           TrackerEvent.trackedFeatures ::
           TrackerEvent.newFeatures ::
           (if false then [TrackerEvent.getTrackImage] else []) :=
  ⟨by decide,
   imageCallback_forwards_rotated_gyros Mat3.identity false sScenario 11 0 (by decide)⟩

/-- Claim C7: when the decode of the incoming image fails, the callback
returns at once: the state (in particular `imu_queue_`) is unchanged and the
tracker receives no call at all for that frame. -/
theorem imageCallback_decode_failure_no_effect (R : Mat3) (hs : Bool)
    (s : RosState) (t : ℚ) :
    imageCallback R hs s t none = (s, []) := rfl

/-- Lifetime accounting generalized over the starting state: the samples
drained so far, followed by the samples still queued, are exactly the
samples queued at the start followed by the samples ingested during the
events — each once, in arrival order. -/
theorem runDrains_flatten_append (R : Mat3) (hs : Bool) :
    ∀ (es : List InputEvent) (s : RosState),
      (runDrains R hs s es).2.flatten ++ (runDrains R hs s es).1.imuQueue
        = s.imuQueue ++ ingestedSamples s.isFirstImu s.prevImuTime es
  | [], s => by simp [runDrains, ingestedSamples]
  | InputEvent.imuArrives t acc w :: es, s => by
      rcases s with ⟨f, p, q⟩
      cases f
      · have ih := runDrains_flatten_append R hs es ⟨false, p, q ++ [(t, ⟨acc, w, t - p⟩)]⟩
        simp only [runDrains, imuCallback] at ih ⊢
        simp only [Bool.false_eq_true, if_false] at ih ⊢
        rw [ih]
        simp [ingestedSamples]
      · have ih := runDrains_flatten_append R hs es ⟨false, t, q⟩
        simp only [runDrains, imuCallback] at ih ⊢
        simp only [if_true] at ih ⊢
        rw [ih]
        simp [ingestedSamples]
  | InputEvent.imageArrives t none :: es, s => by
      have ih := runDrains_flatten_append R hs es s
      simp only [runDrains, imageCallback] at ih ⊢
      rw [ih]
      simp [ingestedSamples]
  | InputEvent.imageArrives t (some img) :: es, s => by
      rcases s with ⟨f, p, q⟩
      have ih := runDrains_flatten_append R hs es ⟨f, p, (drainUpTo q t).2⟩
      simp only [runDrains, imageCallback] at ih ⊢
      rw [List.flatten_cons, List.append_assoc, ih]
      rw [← List.append_assoc]
      have hsplit : (drainUpTo q t).1 ++ (drainUpTo q t).2 = q := by
        unfold drainUpTo; exact List.takeWhile_append_dropWhile _ q
      rw [hsplit]
      simp [ingestedSamples]

/-- Claim C5 (amended): over any sequence of inertial and image arrivals
from the initial state, the concatenation of the sequences drained by the
successive image arrivals, followed by the samples still in the buffer,
equals the sequence of all ingested inertial samples (the seed-only first
sample excluded), each exactly once and in original arrival order — no
sample is duplicated or lost. -/
theorem drains_and_queue_account_for_ingested (R : Mat3) (hs : Bool)
    (es : List InputEvent) :
    (runDrains R hs initialState es).2.flatten
        ++ (runDrains R hs initialState es).1.imuQueue
      = ingestedSamples true 0 es := by
  have h := runDrains_flatten_append R hs es initialState
  simpa [initialState] using h

/-- Counterexample to C5 as stated: after the seed at `0`, a sample at `5`
and an image at `1`, the concatenation of all drains is empty while the
ingested-sample sequence holds the sample at `5` — it is still waiting in
the buffer, so the two sides differ. -/
theorem drains_alone_miss_pending_samples :
    (runDrains Mat3.identity false initialState eventsPending).2.flatten = [] ∧
    ingestedSamples true 0 eventsPending = [(5, ⟨zero3, zero3, 5 - 0⟩)] ∧
    ([] : List (ℚ × imuReading)) ≠ [(5, ⟨zero3, zero3, 5 - 0⟩)] := by
  refine ⟨?_, ?_, ?_⟩
  · simp [eventsPending, runDrains, imuCallback, imageCallback, drainUpTo,
          initialState, zero3]
  · simp [eventsPending, ingestedSamples]
  · simp

/-- Claim C3 (failing input): after inertial arrivals at `0, 1, 3`, the
enqueued samples carry `dT = 1` and `dT = 3`: the gap is always measured
from the seed sample at `0`, because `prev_imu_time_` is never updated, so
the sample at `3` does not carry the gap `2` from its immediate predecessor
at `1`. -/
theorem imu_dt_measured_from_first_sample :
    ((runState Mat3.identity false initialState eventsDt).imuQueue.map
        (fun x => x.2.dT)) = [1 - 0, 3 - 0] ∧
    ((1 : ℚ) - 0 = 1 ∧ (3 : ℚ) - 0 = 3) ∧
    ([1, 3] : List ℚ) ≠ [1, 3 - 1] := by
  refine ⟨?_, ⟨by norm_num, by norm_num⟩, by norm_num⟩
  simp [eventsDt, runState, imuCallback, initialState]

/-- Claim C1 (failing input): with kalibr-ordered raw intrinsics
`{f_u=300, f_v=300, c_u=320, c_v=240}` and `feature_pixel_std = 7`, the
code derives `pixel_noise_u = (7/320)^2` and `pixel_noise_v = (7/240)^2`
(and cost norm `(11/320)^2` from the default 11): the divisors are
`intrinsics[2]`/`intrinsics[3]` — the principal point under this reading —
not the focal lengths 300, so neither variance equals `(7/300)^2`. -/
theorem pixel_noise_divides_by_principal_point :
    (load_parameters cfgKalibr).noise_params.u_var_prime = (7 / 320) ^ 2 ∧
    (load_parameters cfgKalibr).noise_params.v_var_prime = (7 / 240) ^ 2 ∧
    (load_parameters cfgKalibr).msckf_params.max_gn_cost_norm = (11 / 320) ^ 2 ∧
    ((7 : ℚ) / 320) ^ 2 ≠ ((7 : ℚ) / 300) ^ 2 ∧
    ((7 : ℚ) / 240) ^ 2 ≠ ((7 : ℚ) / 300) ^ 2 := by
  refine ⟨?_, ?_, ?_, by norm_num, by norm_num⟩ <;>
    simp [load_parameters, cfgKalibr, cfgBase]

/-- Counterexample to C6 as stated: with `keyframe_transl_dist = 1` and
`keyframe_rot_dist = 2`, the translation/distance field of the filter
parameters holds `2` (the rotation threshold), not the translation
threshold `1` the claim assigns to the correspondingly-named field. -/
theorem keyframe_threshold_fields_crossed :
    (load_parameters cfgKeyframe).msckf_params.redundancy_distance_thresh = 2 ∧
    claimedRedundancyDistanceThresh cfgKeyframe = 1 ∧
    (load_parameters cfgKeyframe).msckf_params.redundancy_distance_thresh
      ≠ claimedRedundancyDistanceThresh cfgKeyframe := by
  refine ⟨?_, ?_, ?_⟩ <;>
    simp [load_parameters, cfgKeyframe, cfgBase, claimedRedundancyDistanceThresh]

/-- Claim C6 (amended): every listed threshold value passes through
unchanged with its documented default when absent — translation_threshold
0.05, min_rcond 3e-12, keyframe_transl_dist 0.005, keyframe_rot_dist 0.05,
max_track_length 1000, min_track_length 3, max_cam_states 20 — but the two
keyframe thresholds are stored crosswise: `keyframe_transl_dist` lands in
`redundancy_angle_thresh` and `keyframe_rot_dist` in
`redundancy_distance_thresh`. -/
theorem filter_thresholds_pass_through (cfg : RawConfig) :
    (load_parameters cfg).msckf_params.translation_threshold
        = cfg.translationThreshold.getD 0.05 ∧
    (load_parameters cfg).msckf_params.min_rcond = cfg.minRcond.getD 3e-12 ∧
    (load_parameters cfg).msckf_params.redundancy_angle_thresh
        = cfg.keyframeTranslDist.getD 0.005 ∧
    (load_parameters cfg).msckf_params.redundancy_distance_thresh
        = cfg.keyframeRotDist.getD 0.05 ∧
    (load_parameters cfg).msckf_params.max_track_length
        = cfg.maxTrackLength.getD 1000 ∧
    (load_parameters cfg).msckf_params.min_track_length
        = cfg.minTrackLength.getD 3 ∧
    (load_parameters cfg).msckf_params.max_cam_states
        = cfg.maxCamStates.getD 20 :=
  ⟨rfl, rfl, rfl, rfl, rfl, rfl, rfl⟩

/-- Counterexample to C8 as stated: at a concrete configuration, the
constructor's startup trace contains zero estimator-initialize calls, not
exactly one. -/
theorem constructor_initializes_estimator_zero_times :
    (rosInterfaceConstructor cfgBase 0).countP SetupEvent.isEstimatorInitialize = 0 ∧
    (0 : ℕ) ≠ 1 :=
  ⟨rfl, by decide⟩

/-- Claim C8 (amended): construction never invokes the estimator's
initialize; it is the separate `setup_msckf` operation that, when invoked,
calls initialize exactly once, with the camera, noise and filter bundles
produced by the configuration derivation and the initial state. -/
theorem estimator_initialized_once_by_setup_msckf (cfg : RawConfig) (r0 : ℚ)
    (st : imuState) :
    (rosInterfaceConstructor cfg r0).countP SetupEvent.isEstimatorInitialize = 0 ∧
    setup_msckf (load_parameters cfg) st =
      [SetupEvent.estimatorInitialize (load_parameters cfg).camera
        (load_parameters cfg).noise_params (load_parameters cfg).msckf_params st] ∧
    (setup_msckf (load_parameters cfg) st).countP SetupEvent.isEstimatorInitialize = 1 :=
  ⟨rfl, rfl, rfl⟩

/-- Claim C9 (failing input): with the RANSAC-threshold key configured to
`1/2` and the member holding an arbitrary pre-constructor value `1`, the
grid is configured with its defaults `8 x 8`, but the value handed to the
tracker's RANSAC-threshold setter is the stale member value `1`: the loaded
`1/2` only reaches the shadowing local, and `1` is neither the configured
value nor the documented default `0.000002`. -/
theorem ransac_setter_receives_stale_member :
    setup_track_handler 1 (load_parameters cfgRansac) =
      [SetupEvent.trackerCreate (load_parameters cfgRansac).K
         (load_parameters cfgRansac).distortion_model,
       SetupEvent.trackerSetGridSize 8 8,
       SetupEvent.trackerSetRansacThreshold 1] ∧
    (load_parameters cfgRansac).ransacThresholdLocal = 1 / 2 ∧
    (1 : ℚ) ≠ 1 / 2 ∧ (1 : ℚ) ≠ 0.000002 := by
  refine ⟨?_, ?_, by norm_num, by norm_num⟩
  · simp [setup_track_handler, load_parameters, cfgRansac, cfgBase]
  · simp [load_parameters, cfgRansac, cfgBase]

/-- Claim C10: for every configuration, the K matrix handed to the tracker
takes its focal entries `K(0,0), K(1,1)` from intrinsics elements 0 and 1
and its principal-point entries `K(0,2), K(1,2)` from elements 2 and 3,
while the camera model handed to the estimator assigns `c_u, c_v` from
elements 0 and 1 and `f_u, f_v` from elements 2 and 3; the two structures
agree on which elements are the focal lengths exactly when element 0 equals
element 2 and element 1 equals element 3. -/
theorem K_and_camera_assign_opposite_roles (cfg : RawConfig) :
    (load_parameters cfg).K.m00 = cfg.intrinsics 0 ∧
    (load_parameters cfg).K.m11 = cfg.intrinsics 1 ∧
    (load_parameters cfg).K.m02 = cfg.intrinsics 2 ∧
    (load_parameters cfg).K.m12 = cfg.intrinsics 3 ∧
    (load_parameters cfg).camera.c_u = cfg.intrinsics 0 ∧
    (load_parameters cfg).camera.c_v = cfg.intrinsics 1 ∧
    (load_parameters cfg).camera.f_u = cfg.intrinsics 2 ∧
    (load_parameters cfg).camera.f_v = cfg.intrinsics 3 ∧
    (((load_parameters cfg).camera.f_u = (load_parameters cfg).K.m00 ∧
      (load_parameters cfg).camera.f_v = (load_parameters cfg).K.m11) ↔
     (cfg.intrinsics 0 = cfg.intrinsics 2 ∧ cfg.intrinsics 1 = cfg.intrinsics 3)) := by
  refine ⟨rfl, rfl, rfl, rfl, rfl, rfl, rfl, rfl, ?_⟩
  show (cfg.intrinsics 2 = cfg.intrinsics 0 ∧ cfg.intrinsics 3 = cfg.intrinsics 1) ↔ _
  exact and_congr eq_comm eq_comm

end Msckf
